import Mathlib

/-
  Verification development for the token-monitoring bot
  (sources: src/bot.py and src/price_fetcher.py).

  Prices are Python floats in the source; they are modelled here as exact
  rationals (ℚ), since every claim under verification is about orderings,
  comparisons and control flow, not about rounding.
-/

/-! ## Threshold Tracker and Monitor Loop (src/bot.py, `TokenMonitorBot.monitor_token`) -/

/-- The per-loop mutable state of `monitor_token` (bot.py lines 229-232):
`price_displayed`, `last_price`, `low_notified`, `high_notified`. -/
structure TrackerState where
  price_displayed : Bool
  last_price : Option ℚ
  low_notified : Bool
  high_notified : Bool
deriving Repr, DecidableEq

/-- Messages the monitor loop sends: the one-time current-price display
(bot.py lines 241-247) and the two threshold notifications. -/
inductive Msg where
  | display (p : ℚ)
  | reachedLow
  | reachedHigh
deriving Repr, DecidableEq

/-- `last_price is not None and last_price > low_threshold` (bot.py line 252). -/
def prevAbove (lp : Option ℚ) (low : ℚ) : Bool :=
  match lp with
  | some v => low < v
  | none => false

/-- `last_price is not None and last_price < high_threshold` (bot.py line 261). -/
def prevBelow (lp : Option ℚ) (high : ℚ) : Bool :=
  match lp with
  | some v => v < high
  | none => false

/-- The threshold-evaluation block of `monitor_token` (bot.py lines 249-274):
the `if price <= low / elif price >= high / else` rule operating on the
notification latches.  Returns the updated state and the notifications sent. -/
def evalThresholds (low high : ℚ) (s : TrackerState) (price : ℚ) :
    TrackerState × List Msg :=
  if price ≤ low then
    if !s.low_notified || prevAbove s.last_price low then
      ({ s with low_notified := true, high_notified := false }, [Msg.reachedLow])
    else (s, [])
  else if high ≤ price then
    if !s.high_notified || prevBelow s.last_price high then
      ({ s with high_notified := true, low_notified := false }, [Msg.reachedHigh])
    else (s, [])
  else
    match s.last_price with
    | some lp =>
      if lp ≤ low ∧ low < price then ({ s with low_notified := false }, [])
      else if high ≤ lp ∧ price < high then ({ s with high_notified := false }, [])
      else (s, [])
    | none => (s, [])

/-- One iteration of the `if price is not None:` body of `monitor_token`
(bot.py lines 239-277): the one-time price display (which sets `last_price`
before the threshold check, line 247), the threshold evaluation, and the
trailing `last_price = price` (line 276). -/
def stepPrice (low high : ℚ) (s : TrackerState) (price : ℚ) :
    TrackerState × List Msg :=
  let d :=
    if !s.price_displayed then
      ({ s with price_displayed := true, last_price := some price },
       [Msg.display price])
    else (s, ([] : List Msg))
  let t := evalThresholds low high d.1 price
  ({ t.1 with last_price := some price }, d.2 ++ t.2)

/-- The fresh state a monitor loop starts from (bot.py lines 229-232). -/
def freshState : TrackerState :=
  { price_displayed := false, last_price := none,
    low_notified := false, high_notified := false }

/-- Feed a sequence of successful price samples to the tracker, collecting the
messages sent at each index. -/
def runPrices (low high : ℚ) (s : TrackerState) : List ℚ → TrackerState × List (List Msg)
  | [] => (s, [])
  | p :: ps =>
    let t := stepPrice low high s p
    let r := runPrices low high t.1 ps
    (r.1, t.2 :: r.2)

/-- Keep only threshold notifications, dropping the one-time price display. -/
def threshMsgs (ms : List Msg) : List Msg :=
  ms.filter fun m =>
    match m with
    | Msg.display _ => false
    | _ => true

/-- A `monitoring.json` entry as written by `handle_message`
(bot.py lines 192-196); `monitor_token` reads the fields with
`config.get('low', 0)` / `config.get('high', 0)`, hence the optional fields. -/
structure MonCfg where
  low? : Option ℚ
  high? : Option ℚ
  chat_id : ℤ
deriving Repr, DecidableEq

/-- The full per-loop state: the tracker variables plus the thresholds the
loop is currently using (bot.py lines 226-227). -/
structure LoopState where
  tracker : TrackerState
  low_threshold : ℚ
  high_threshold : ℚ
deriving Repr, DecidableEq

/-- The price-handling phase of one `while True` iteration (bot.py lines
236-277): a failed fetch (`price is None`) skips everything; a successful
fetch runs `stepPrice` with the current thresholds. -/
def pricePhase (st : LoopState) (priceResult : Option ℚ) : LoopState × List Msg :=
  match priceResult with
  | none => (st, [])
  | some p =>
    let t := stepPrice st.low_threshold st.high_threshold st.tracker p
    ({ st with tracker := t.1 }, t.2)

/-- The end-of-cycle config reload (bot.py lines 282-296): an absent entry
breaks the loop (`none` result); changed thresholds reset both latches and
install the new thresholds. -/
def reloadPhase (st : LoopState) (entry : Option MonCfg) : Option LoopState :=
  match entry with
  | none => none
  | some cfg =>
    let new_low := cfg.low?.getD 0
    let new_high := cfg.high?.getD 0
    if new_low ≠ st.low_threshold ∨ new_high ≠ st.high_threshold then
      some { tracker := { st.tracker with low_notified := false, high_notified := false },
             low_threshold := new_low, high_threshold := new_high }
    else some st

/-- One full `while True` iteration of `monitor_token`: price phase, the
8-second sleep (pure delay, no state), then the config reload.  A `none`
first component means the loop broke out (bot.py line 286). -/
def cycle (st : LoopState) (priceResult : Option ℚ) (entry : Option MonCfg) :
    Option LoopState × List Msg :=
  let pr := pricePhase st priceResult
  (reloadPhase pr.1 entry, pr.2)

/-- Run the monitor loop over a stream of per-cycle inputs (fetched price,
reloaded config entry), collecting the messages of each executed cycle.
The run stops as soon as a reload finds the entry absent. -/
def runLoop (st : LoopState) : List (Option ℚ × Option MonCfg) → List (List Msg)
  | [] => []
  | (p, e) :: rest =>
    let c := cycle st p e
    match c.1 with
    | none => [c.2]
    | some st' => c.2 :: runLoop st' rest

/-! ## Registration handler (src/bot.py, `TokenMonitorBot.handle_message`) -/

/-- A `token_mapping.json` entry. -/
structure TokenInfo where
  address : String
  chain : String
deriving Repr, DecidableEq

/-- The bot-level mutable state touched by `handle_message`: the persisted
monitoring configuration (monitoring.json) and the set of active monitoring
tasks (`self.monitoring_tasks`, keyed by token name). -/
structure BotState where
  monitoring_config : List (String × MonCfg)
  monitoring_tasks : List String
deriving Repr, DecidableEq

/-- Externally visible actions of `handle_message`: chat replies, cancelling
an existing monitoring task, starting a new one. -/
inductive BotAction where
  | reply (text : String)
  | cancelTask (name : String)
  | startTask (name : String)
deriving Repr, DecidableEq

/-- Replace-or-insert for an association list (dict assignment
`monitoring_config[token_name] = {...}`). -/
def upsert (l : List (String × MonCfg)) (k : String) (v : MonCfg) :
    List (String × MonCfg) :=
  match l with
  | [] => [(k, v)]
  | (k', v') :: rest =>
    if k' = k then (k, v) :: rest else (k', v') :: upsert rest k v

/-- `handle_message` after a successful parse of `token_name low high`
(bot.py lines 170-215): validate `low < high`, check the token mapping,
persist the new config entry, cancel any existing task for the token, reply,
and start the new monitoring task. -/
def handle_message_parsed (mapping : List (String × TokenInfo)) (st : BotState)
    (token_name : String) (low high : ℚ) (chat_id : ℤ) :
    BotState × List BotAction :=
  if low ≥ high then
    (st, [BotAction.reply "Error: Low price must be less than high price."])
  else if (mapping.lookup token_name).isNone then
    (st, [BotAction.reply "Error: Token not found in token mapping."])
  else
    let cfg' := upsert st.monitoring_config token_name
      { low? := some low, high? := some high, chat_id := chat_id }
    let cancels :=
      if st.monitoring_tasks.contains token_name then
        [BotAction.cancelTask token_name]
      else []
    ({ monitoring_config := cfg',
       monitoring_tasks :=
         if st.monitoring_tasks.contains token_name then st.monitoring_tasks
         else token_name :: st.monitoring_tasks },
     cancels ++ [BotAction.reply "Starting price monitoring...",
                 BotAction.startTask token_name])

/-! ## Price fetcher (src/price_fetcher.py, `PriceFetcher`) -/

/-- A JSON value, the result of `response.json()`. -/
inductive JsonVal where
  | null
  | bool (b : Bool)
  | num (q : ℚ)
  | str (s : String)
  | arr (elems : List JsonVal)
  | obj (fields : List (String × JsonVal))

/-- Dictionary key lookup (`data[k]`, guarded by `k in data`): a hit only on
an object that carries the key.  Python raises on subscripting non-dicts, but
every such raise in the fetchers is caught and yields `None`, which this
`none` models observationally. -/
def jsonGet? (v : JsonVal) (key : String) : Option JsonVal :=
  match v with
  | JsonVal.obj fields => fields.lookup key
  | _ => none

/-- Python truthiness of a JSON value (used by the `or 0` in the DexScreener
liquidity key). -/
def pyTruthy : JsonVal → Bool
  | JsonVal.null => false
  | JsonVal.bool b => b
  | JsonVal.num q => decide (q ≠ 0)
  | JsonVal.str s => decide (s ≠ "")
  | JsonVal.arr l => !l.isEmpty
  | JsonVal.obj l => !l.isEmpty

/-- Python `x or y`. -/
def pyOr (x y : JsonVal) : JsonVal :=
  if pyTruthy x then x else y

/-- Digits of a decimal literal to a natural number. -/
def digitsToNat? (cs : List Char) : Option Nat :=
  if cs.isEmpty then none
  else if cs.all (fun c => c.isDigit) then
    some (cs.foldl (fun n c => n * 10 + (c.toNat - 48)) 0)
  else none

/-- Strip an optional leading sign, returning the sign as ±1. -/
def parseSign : List Char → ℚ × List Char
  | '-' :: cs => (-1, cs)
  | '+' :: cs => (1, cs)
  | cs => (1, cs)

/-- Parse `digits[.digits]` (either side optional, not both empty). -/
def parseMantissa? (cs : List Char) : Option ℚ :=
  match cs.splitOn '.' with
  | [ip] => (digitsToNat? ip).map (fun n => (n : ℚ))
  | [ip, fp] =>
    if ip.isEmpty && fp.isEmpty then none
    else do
      let ipn ← if ip.isEmpty then pure 0 else digitsToNat? ip
      let fpn ← if fp.isEmpty then pure 0 else digitsToNat? fp
      pure ((ipn : ℚ) + (fpn : ℚ) / ((10 : ℚ) ^ fp.length))
  | _ => none

/-- Parse a decimal float literal `[+-]mantissa[(e|E)[+-]digits]` into an
exact rational; `none` models `float(...)` raising `ValueError`. -/
def decToRat? (s : String) : Option ℚ :=
  let sg := parseSign (s.trim.data.map fun c => if c = 'E' then 'e' else c)
  match sg.2.splitOn 'e' with
  | [m] => (parseMantissa? m).map (fun mv => sg.1 * mv)
  | [m, e] => do
    let mv ← parseMantissa? m
    let es := parseSign e
    let en ← digitsToNat? es.2
    pure (sg.1 * mv * (if es.1 = 1 then (10 : ℚ) ^ en else ((10 : ℚ) ^ en)⁻¹))
  | _ => none

/-- Python `float(v)` on a JSON value: numbers pass through, booleans become
0/1, decimal strings are parsed; anything else raises (`.error`). -/
def pyFloatE : JsonVal → Except Unit ℚ
  | JsonVal.num q => Except.ok q
  | JsonVal.bool b => Except.ok (if b then 1 else 0)
  | JsonVal.str s =>
    match decToRat? s with
    | some q => Except.ok q
    | none => Except.error ()
  | _ => Except.error ()

/-- The network, abstracted: a URL maps to either a transport-level failure
(connection error, timeout, undecodable body — `.error`) or a status code
with a decoded JSON body. -/
def Net : Type := String → Except Unit (Nat × JsonVal)

/-- `f"https://price.jup.ag/v4/price?ids={address}"` (price_fetcher.py line 69). -/
def jupiter_url (address : String) : String :=
  "https://price.jup.ag/v4/price?ids=" ++ address

/-- `_fetch_from_jupiter` (price_fetcher.py lines 65-85). -/
def fetch_from_jupiter (net : Net) (address : String) : Option ℚ :=
  match net (jupiter_url address) with
  | Except.error _ => none
  | Except.ok (status, data) =>
    if status = 200 then
      match jsonGet? data "data" with
      | some dd =>
        match jsonGet? dd address with
        | some token_data =>
          match jsonGet? token_data "price" with
          | some v => (pyFloatE v).toOption
          | none => none
        | none => none
      | none => none
    else none

/-- The `chain_map` dict of `_fetch_from_dexscreener` (price_fetcher.py
lines 90-100). -/
def dexscreener_chain_map : List (String × String) :=
  [("solana", "solana"), ("ethereum", "ethereum"), ("bsc", "bsc"),
   ("polygon", "polygon"), ("arbitrum", "arbitrum"), ("optimism", "optimism"),
   ("avalanche", "avalanche"), ("sui", "sui"), ("evm", "ethereum")]

/-- `chain_id = chain_map.get(chain.lower(), chain.lower())` (line 101).
Note: `chain_id` is computed but never used afterwards in the source. -/
def dexscreener_chain_id (chain : String) : String :=
  (dexscreener_chain_map.lookup chain.toLower).getD chain.toLower

/-- The URL `_fetch_from_dexscreener` actually requests (price_fetcher.py
lines 90-103): the `chain_id` is computed and then dropped, and the request
URL is built from the address alone. -/
def dexscreener_request_url (address : String) (chain : String) : String :=
  let _chain_id := dexscreener_chain_id chain
  "https://api.dexscreener.com/latest/dex/tokens/" ++ address

/-- The DexScreener liquidity sort key
`float(x.get('liquidity', {}).get('usd', 0) or 0)` (line 110); `.error`
models the `AttributeError` raised when `x` or the liquidity field is not a
dict. -/
def pairLiquidity (x : JsonVal) : Except Unit ℚ :=
  match x with
  | JsonVal.obj _ =>
    let l := (jsonGet? x "liquidity").getD (JsonVal.obj [])
    match l with
    | JsonVal.obj _ => pyFloatE (pyOr ((jsonGet? l "usd").getD (JsonVal.num 0)) (JsonVal.num 0))
    | _ => Except.error ()
  | _ => Except.error ()

/-- Stable descending insertion for keyed pairs: a new element goes in front
of the first element whose key is ≤ its own, so earlier elements with equal
keys keep their relative order. -/
def insertPairDesc (x : JsonVal × ℚ) : List (JsonVal × ℚ) → List (JsonVal × ℚ)
  | [] => [x]
  | y :: ys => if y.2 ≤ x.2 then x :: y :: ys else y :: insertPairDesc x ys

/-- Stable sort by descending key (insertion sort — same result as Python's
stable `sorted(..., reverse=True)`). -/
def sortPairsDesc : List (JsonVal × ℚ) → List (JsonVal × ℚ)
  | [] => []
  | x :: xs => insertPairDesc x (sortPairsDesc xs)

/-- `sorted(data['pairs'], key=..., reverse=True)` (line 110): stable sort by
descending liquidity key; any raising key aborts the sort. -/
def sortPairsByLiquidity (ps : List JsonVal) : Except Unit (List JsonVal) := do
  let keyed ← ps.mapM (fun p => do
    let k ← pairLiquidity p
    pure (p, k))
  pure ((sortPairsDesc keyed).map Prod.fst)

/-- `_fetch_from_dexscreener` (price_fetcher.py lines 87-120). -/
def fetch_from_dexscreener (net : Net) (address : String) (chain : String) : Option ℚ :=
  match net (dexscreener_request_url address chain) with
  | Except.error _ => none
  | Except.ok (status, data) =>
    if status = 200 then
      match jsonGet? data "pairs" with
      | some (JsonVal.arr ps) =>
        if ps.length > 0 then
          match sortPairsByLiquidity ps with
          | Except.error _ => none
          | Except.ok sorted =>
            match sorted with
            | [] => none
            | pair :: _ =>
              match jsonGet? pair "priceUsd" with
              | some v => (pyFloatE v).toOption
              | none =>
                match jsonGet? pair "priceNative" with
                | some _ => (pyFloatE ((jsonGet? pair "priceUsd").getD (JsonVal.num 0))).toOption
                | none => none
        else none
      | _ => none
    else none

/-- `f"https://public-api.birdeye.so/v1/token/price?address={address}"`
(price_fetcher.py line 126). -/
def birdeye_url (address : String) : String :=
  "https://public-api.birdeye.so/v1/token/price?address=" ++ address

/-- `_fetch_from_birdeye` (price_fetcher.py lines 122-139). -/
def fetch_from_birdeye (net : Net) (address : String) : Option ℚ :=
  match net (birdeye_url address) with
  | Except.error _ => none
  | Except.ok (status, data) =>
    if status = 200 then
      match jsonGet? data "data" with
      | some dd =>
        match jsonGet? dd "value" with
        | some v => (pyFloatE v).toOption
        | none => none
      | none => none
    else none

/-- The two DexTools endpoints tried in order (price_fetcher.py lines 145-148). -/
def dextools_endpoints (address chain : String) : List String :=
  ["https://www.dextools.io/shared/data/pair?address=" ++ address ++ "&chain=" ++ chain,
   "https://api.dextools.io/v1/token/" ++ chain ++ "/" ++ address]

/-- A run of the sequential `if ... return float(...)` probes over one object
(used by `_extract_price_from_response`): first present key wins; a failing
conversion raises. -/
def tryFloatKeys (o : JsonVal) : List String → Except Unit (Option ℚ)
  | [] => Except.ok none
  | k :: rest =>
    match jsonGet? o k with
    | some v =>
      match pyFloatE v with
      | Except.ok q => Except.ok (some q)
      | Except.error e => Except.error e
    | none => tryFloatKeys o rest

/-- Probe 1 (price_fetcher.py lines 196-203): `if 'data' in data and
isinstance(data['data'], dict)` then keys `price` / `priceUSD` / `priceUsd`
in source order. -/
def probe_nested_data (data : JsonVal) : Except Unit (Option ℚ) :=
  match jsonGet? data "data" with
  | some (JsonVal.obj fs) => tryFloatKeys (JsonVal.obj fs) ["price", "priceUSD", "priceUsd"]
  | _ => Except.ok none

/-- Probe 2 (price_fetcher.py lines 206-211): the same price-like keys at top
level. -/
def probe_top_level (data : JsonVal) : Except Unit (Option ℚ) :=
  tryFloatKeys data ["price", "priceUSD", "priceUsd"]

/-- Probe 3 (price_fetcher.py lines 214-219): `if 'result' in data and
isinstance(data['result'], dict)` then keys `price` / `priceUSD` only. -/
def probe_nested_result (data : JsonVal) : Except Unit (Option ℚ) :=
  match jsonGet? data "result" with
  | some (JsonVal.obj fs) => tryFloatKeys (JsonVal.obj fs) ["price", "priceUSD"]
  | _ => Except.ok none

/-- Probe 4 (price_fetcher.py lines 222-227): `pair = data['pairs'][0]` — the
FIRST record of the `pairs` list, with no liquidity sorting — then keys
`priceUsd` / `price`. -/
def probe_pairs_head (data : JsonVal) : Except Unit (Option ℚ) :=
  match jsonGet? data "pairs" with
  | some (JsonVal.arr (pair :: _)) => tryFloatKeys pair ["priceUsd", "price"]
  | _ => Except.ok none

/-- The body of `_extract_price_from_response` (price_fetcher.py lines
194-229) before its `except` clause: the sequence of early-return probes in
source order, in the `Except` monad. -/
def extractCore (data : JsonVal) : Except Unit (Option ℚ) := do
  let r1 ← probe_nested_data data
  match r1 with
  | some q => pure (some q)
  | none => do
    let r2 ← probe_top_level data
    match r2 with
    | some q => pure (some q)
    | none => do
      let r3 ← probe_nested_result data
      match r3 with
      | some q => pure (some q)
      | none => probe_pairs_head data

/-- `_extract_price_from_response` (price_fetcher.py lines 192-232): the
probe sequence with the surrounding `except (ValueError, KeyError,
TypeError): return None`. -/
def extract_price_from_response (data : JsonVal) : Option ℚ :=
  match extractCore data with
  | Except.ok r => r
  | Except.error _ => none

/-- `_fetch_from_dextools`, inner endpoint loop (price_fetcher.py lines
150-159). -/
def dextoolsLoop (net : Net) : List String → Option ℚ
  | [] => none
  | url :: rest =>
    match net url with
    | Except.error _ => dextoolsLoop net rest
    | Except.ok (status, data) =>
      if status = 200 then
        match extract_price_from_response data with
        | some p => some p
        | none => dextoolsLoop net rest
      else dextoolsLoop net rest

/-- `_fetch_from_dextools` (price_fetcher.py lines 141-162). -/
def fetch_from_dextools (net : Net) (address chain : String) : Option ℚ :=
  dextoolsLoop net (dextools_endpoints address chain)

/-- `_fetch_solana_price` (price_fetcher.py lines 41-63): Jupiter, then
DexScreener scoped "solana", then DexTools, then Birdeye. -/
def fetch_solana_price (net : Net) (address : String) : Option ℚ :=
  match fetch_from_jupiter net address with
  | some p => some p
  | none =>
    match fetch_from_dexscreener net address "solana" with
    | some p => some p
    | none =>
      match fetch_from_dextools net address "solana" with
      | some p => some p
      | none =>
        match fetch_from_birdeye net address with
        | some p => some p
        | none => none

/-- `_fetch_evm_price` (price_fetcher.py lines 164-176): DexScreener with the
given chain, then DexTools. -/
def fetch_evm_price (net : Net) (address chain : String) : Option ℚ :=
  match fetch_from_dexscreener net address chain with
  | some p => some p
  | none =>
    match fetch_from_dextools net address chain with
    | some p => some p
    | none => none

/-- `_fetch_sui_price` (price_fetcher.py lines 178-190). -/
def fetch_sui_price (net : Net) (address : String) : Option ℚ :=
  match fetch_from_dexscreener net address "sui" with
  | some p => some p
  | none =>
    match fetch_from_dextools net address "sui" with
    | some p => some p
    | none => none

/-- `PriceFetcher.get_price` (price_fetcher.py lines 17-39): lowercase the
chain, dispatch to the per-chain fallback chain; the surrounding
`except Exception: return None` has nothing left to catch since every
sub-fetcher already returns an `Option`. -/
def get_price (net : Net) (token_address chain : String) : Option ℚ :=
  let chain := chain.toLower
  if chain = "solana" then fetch_solana_price net token_address
  else if chain = "sui" then fetch_sui_price net token_address
  else fetch_evm_price net token_address chain

/-- An empty-object JSON body: no price-bearing field at all. -/
def isEmptyObj : JsonVal → Bool
  | JsonVal.obj [] => true
  | _ => false

/-- A response on which every fetcher fails: transport error, non-success
status, or an empty-object body. -/
def failedResp (r : Except Unit (Nat × JsonVal)) : Bool :=
  match r with
  | Except.error _ => true
  | Except.ok (status, body) => decide (status ≠ 200) || isEmptyObj body

/-! ## Spec-side formulations used for refinement comparisons -/

/-- Modelled from the spec: probe 4 as the spec words it — "a list of
trading-pair records sorted by descending liquidity (selecting the
highest-liquidity pair's price)".  This sorting step is absent from
`_extract_price_from_response`; it exists only inside
`_fetch_from_dexscreener`. -/
def probe_pairs_sorted (data : JsonVal) : Except Unit (Option ℚ) :=
  match jsonGet? data "pairs" with
  | some (JsonVal.arr (p :: ps)) =>
    match sortPairsByLiquidity (p :: ps) with
    | Except.ok (pair :: _) => tryFloatKeys pair ["priceUsd", "price"]
    | _ => Except.ok none
  | _ => Except.ok none

/-- First-success-wins chaining of probes: an error anywhere aborts, a found
value short-circuits, a miss moves on. -/
def orProbe (a b : Except Unit (Option ℚ)) : Except Unit (Option ℚ) :=
  match a with
  | Except.error e => Except.error e
  | Except.ok (some q) => Except.ok (some q)
  | Except.ok none => b

/-- The probe chain exactly as the source behaves: nested `data`, top level,
nested `result`, then the first `pairs` record. -/
def probe_chain_first (data : JsonVal) : Option ℚ :=
  match orProbe (probe_nested_data data)
      (orProbe (probe_top_level data)
        (orProbe (probe_nested_result data) (probe_pairs_head data))) with
  | Except.ok r => r
  | Except.error _ => none

/-- Modelled from the spec: the probe chain as the spec words it, whose last
probe sorts the pair records by descending liquidity. -/
def extract_price_spec (data : JsonVal) : Option ℚ :=
  match orProbe (probe_nested_data data)
      (orProbe (probe_top_level data)
        (orProbe (probe_nested_result data) (probe_pairs_sorted data))) with
  | Except.ok r => r
  | Except.error _ => none

/-- A payload whose `pairs` list has a low-liquidity first record (price 1)
and a high-liquidity second record (price 2). -/
def cexPayload : JsonVal :=
  JsonVal.obj [("pairs", JsonVal.arr
    [JsonVal.obj [("liquidity", JsonVal.obj [("usd", JsonVal.num 5)]),
                  ("priceUsd", JsonVal.num 1)],
     JsonVal.obj [("liquidity", JsonVal.obj [("usd", JsonVal.num 100)]),
                  ("priceUsd", JsonVal.num 2)]])]

/-- A network where every request fails at transport level. -/
def failNet : Net := fun _ => Except.error ()

/-! ## Theorems -/

/-- The price phase never touches the thresholds. -/
theorem pricePhase_preserves_thresholds (st : LoopState) (pr : Option ℚ) :
    (pricePhase st pr).1.low_threshold = st.low_threshold ∧
    (pricePhase st pr).1.high_threshold = st.high_threshold := by
  cases pr <;> simp [pricePhase]

/-- C6: whenever the configuration reloaded at the end of a cycle carries
thresholds (via `config.get('low', 0)` / `config.get('high', 0)`) that differ
from those the loop last used, the cycle continues with both notification
latches reset to `false` and the new thresholds installed, so the next
threshold evaluation starts from cleared latches. -/
theorem reload_threshold_change_resets_latches (st : LoopState) (pr : Option ℚ)
    (cfg : MonCfg)
    (h : cfg.low?.getD 0 ≠ st.low_threshold ∨ cfg.high?.getD 0 ≠ st.high_threshold) :
    ((cycle st pr (some cfg)).1.map fun st' =>
        (st'.tracker.low_notified, st'.tracker.high_notified,
         st'.low_threshold, st'.high_threshold)) =
      some (false, false, cfg.low?.getD 0, cfg.high?.getD 0) := by
  obtain ⟨hl, hh⟩ := pricePhase_preserves_thresholds st pr
  simp only [cycle, reloadPhase]
  rw [if_pos (by rw [hl, hh]; exact h)]
  rfl

/-- Witness for C6 at a concrete input: thresholds change from (1, 2) to
(3, 4) while both latches are set; the cycle clears both latches. -/
theorem reload_threshold_change_resets_latches_witness :
    ((some (3 : ℚ) : Option ℚ).getD 0 ≠ (1 : ℚ) ∨
      (some (4 : ℚ) : Option ℚ).getD 0 ≠ (2 : ℚ)) ∧
    ((cycle { tracker := { price_displayed := true, last_price := some 1,
                           low_notified := true, high_notified := true },
              low_threshold := 1, high_threshold := 2 }
        none (some { low? := some 3, high? := some 4, chat_id := 0 })).1.map fun st' =>
        (st'.tracker.low_notified, st'.tracker.high_notified,
         st'.low_threshold, st'.high_threshold)) =
      some (false, false, (some (3 : ℚ) : Option ℚ).getD 0, (some (4 : ℚ) : Option ℚ).getD 0) :=
  ⟨Or.inl (by norm_num), reload_threshold_change_resets_latches _ none _ (Or.inl (by norm_num))⟩

/-- C7: if the reloaded configuration no longer contains the symbol, the loop
emits the current cycle's messages and terminates (the `break` at bot.py line
286, a clean exit — exceptions do not reach this path); no cycle after the
removal ever runs, so no further message is sent regardless of what the
remaining input stream holds. -/
theorem loop_stops_when_config_removed (st : LoopState) (pr : Option ℚ)
    (rest : List (Option ℚ × Option MonCfg)) :
    runLoop st ((pr, none) :: rest) = [(pricePhase st pr).2] := by
  simp [runLoop, cycle, reloadPhase]

/-- C9: a cycle whose price resolution yields no quote leaves the loop state
entirely unchanged (`last_price`, both latches, the one-time display flag and
the thresholds), sends no message, and goes straight on to the reload that
follows the inter-cycle delay — there is no retry within the cycle. -/
theorem no_quote_cycle_is_frame (st : LoopState) :
    pricePhase st none = (st, []) ∧
    ∀ e, cycle st none e = (reloadPhase st e, []) := by
  exact ⟨rfl, fun e => rfl⟩

/-- C8: a registration request whose band has `low >= high` is rejected up
front: the handler replies with the error text and returns, the bot state —
persisted monitoring configuration and task map — is exactly the input state,
and the action list contains no task start or cancellation (and no config
save happened, since the state is unchanged). -/
theorem registration_rejects_inverted_band (mapping : List (String × TokenInfo))
    (st : BotState) (token_name : String) (low high : ℚ) (chat_id : ℤ)
    (h : low ≥ high) :
    handle_message_parsed mapping st token_name low high chat_id =
      (st, [BotAction.reply "Error: Low price must be less than high price."]) := by
  simp [handle_message_parsed, h]

/-- Witness for C8 at a concrete input (band [2, 1] for token "kori"). -/
theorem registration_rejects_inverted_band_witness :
    (2 : ℚ) ≥ 1 ∧
    handle_message_parsed [("kori", { address := "So1abc", chain := "solana" })]
        { monitoring_config := [], monitoring_tasks := [] } "kori" 2 1 7 =
      ({ monitoring_config := [], monitoring_tasks := [] },
       [BotAction.reply "Error: Low price must be less than high price."]) :=
  ⟨by norm_num, registration_rejects_inverted_band _ _ "kori" 2 1 7 (by norm_num)⟩

/-- C2: at any threshold evaluation where `price <= low`, the "reached low"
notification is emitted iff `low_notified` is false or the previous price
(`last_price` as the evaluation sees it) was strictly above `low`; and
whenever it is emitted, the evaluation leaves `low_notified = true` and
`high_notified = false`. -/
theorem low_rule_fire_iff (low high : ℚ) (s : TrackerState) (price : ℚ)
    (h : price ≤ low) :
    (Msg.reachedLow ∈ (evalThresholds low high s price).2 ↔
      (s.low_notified = false ∨ ∃ lp, s.last_price = some lp ∧ low < lp)) ∧
    (Msg.reachedLow ∈ (evalThresholds low high s price).2 →
      (evalThresholds low high s price).1.low_notified = true ∧
      (evalThresholds low high s price).1.high_notified = false) := by
  obtain ⟨pd, lp, ln, hn⟩ := s
  unfold evalThresholds
  rw [if_pos h]
  cases ln with
  | false => simp [prevAbove]
  | true =>
    cases lp with
    | none => simp [prevAbove]
    | some v =>
      by_cases hv : low < v
      · simp [prevAbove, hv]
      · simp [prevAbove, hv]

/-- Witness for C2 at a concrete input: fresh state, band [1, 2], price 0. -/
theorem low_rule_fire_iff_witness :
    (0 : ℚ) ≤ 1 ∧
    ((Msg.reachedLow ∈ (evalThresholds 1 2 freshState 0).2 ↔
        (freshState.low_notified = false ∨
          ∃ lp, freshState.last_price = some lp ∧ (1 : ℚ) < lp)) ∧
      (Msg.reachedLow ∈ (evalThresholds 1 2 freshState 0).2 →
        (evalThresholds 1 2 freshState 0).1.low_notified = true ∧
        (evalThresholds 1 2 freshState 0).1.high_notified = false)) :=
  ⟨by norm_num, low_rule_fire_iff 1 2 freshState 0 (by norm_num)⟩

/-- C10: on the first evaluation after the first successful quote
(`price_displayed` still false), the display block assigns
`last_price = price` before the threshold check, so the re-fire disjunct
compares the price with itself and is false; a notification fires exactly
when the corresponding latch is still clear.  The final `last_price` is the
current price, never absent. -/
theorem first_sample_fires_iff_latch_clear (low high : ℚ) (s : TrackerState)
    (p : ℚ) (h : s.price_displayed = false) :
    (stepPrice low high s p).1.last_price = some p ∧
    (Msg.reachedLow ∈ (stepPrice low high s p).2 ↔
      p ≤ low ∧ s.low_notified = false) ∧
    (Msg.reachedHigh ∈ (stepPrice low high s p).2 ↔
      ¬ p ≤ low ∧ high ≤ p ∧ s.high_notified = false) := by
  obtain ⟨pd, lp, ln, hn⟩ := s
  simp only at h
  subst h
  by_cases h1 : p ≤ low
  · have h2 : ¬ low < p := not_lt.mpr h1
    cases ln <;> simp [stepPrice, evalThresholds, prevAbove, h1, h2]
  · by_cases h3 : high ≤ p
    · have h4 : ¬ p < high := not_lt.mpr h3
      cases hn <;> simp [stepPrice, evalThresholds, prevBelow, h1, h3, h4]
    · simp [stepPrice, evalThresholds, h1, h3]

/-- Witness for C10 at a concrete input: fresh state (display flag false),
band [1, 2], price 3 — the high notification fires since the latch is clear. -/
theorem first_sample_fires_iff_latch_clear_witness :
    freshState.price_displayed = false ∧
    ((stepPrice 1 2 freshState 3).1.last_price = some 3 ∧
      (Msg.reachedLow ∈ (stepPrice 1 2 freshState 3).2 ↔
        (3 : ℚ) ≤ 1 ∧ freshState.low_notified = false) ∧
      (Msg.reachedHigh ∈ (stepPrice 1 2 freshState 3).2 ↔
        ¬ (3 : ℚ) ≤ 1 ∧ (2 : ℚ) ≤ 3 ∧ freshState.high_notified = false)) :=
  ⟨rfl, first_sample_fires_iff_latch_clear 1 2 freshState 3 rfl⟩

/-- C1: for any band with `low < high` and any strictly in-band `mid`, the
sample sequence [high+1, high+1, mid, low-1, low-1, mid, high+1] fed to a
fresh monitor loop produces threshold notifications exactly at indices 0
("reached high"), 3 ("reached low") and 6 ("reached high") — none at the
repeated extreme samples (indices 1 and 4) and none at the in-band samples
(indices 2 and 5).  The one-time price display at index 0 is not a threshold
notification and is filtered out by `threshMsgs`. -/
theorem threshold_sequence_fires_at_crossings (low high mid : ℚ)
    (h1 : low < mid) (h2 : mid < high) :
    ((runPrices low high freshState
        [high + 1, high + 1, mid, low - 1, low - 1, mid, high + 1]).2).map threshMsgs =
      [[Msg.reachedHigh], [], [], [Msg.reachedLow], [], [], [Msg.reachedHigh]] := by
  have f1 : ¬ (high + 1 ≤ low) := by linarith
  have f2 : high ≤ high + 1 := by linarith
  have f3 : ¬ (high + 1 < high) := by linarith
  have f4 : ¬ (mid ≤ low) := by linarith
  have f5 : ¬ (high ≤ mid) := by linarith
  have f7 : low - 1 ≤ low := by linarith
  have f8 : ¬ (low < low - 1) := by linarith
  have e1 : stepPrice low high freshState (high + 1) =
      ({ price_displayed := true, last_price := some (high + 1),
         low_notified := false, high_notified := true },
       [Msg.display (high + 1), Msg.reachedHigh]) := by
    simp [stepPrice, freshState, evalThresholds, prevBelow, f1, f2]
  have e2 : stepPrice low high
      { price_displayed := true, last_price := some (high + 1),
        low_notified := false, high_notified := true } (high + 1) =
      ({ price_displayed := true, last_price := some (high + 1),
         low_notified := false, high_notified := true }, []) := by
    simp [stepPrice, evalThresholds, prevBelow, f1, f2, f3]
  have e3 : stepPrice low high
      { price_displayed := true, last_price := some (high + 1),
        low_notified := false, high_notified := true } mid =
      ({ price_displayed := true, last_price := some mid,
         low_notified := false, high_notified := false }, []) := by
    simp [stepPrice, evalThresholds, f1, f4, f5, f2, h2]
  have e4 : stepPrice low high
      { price_displayed := true, last_price := some mid,
        low_notified := false, high_notified := false } (low - 1) =
      ({ price_displayed := true, last_price := some (low - 1),
         low_notified := true, high_notified := false },
       [Msg.reachedLow]) := by
    simp [stepPrice, evalThresholds, prevAbove, f7]
  have e5 : stepPrice low high
      { price_displayed := true, last_price := some (low - 1),
        low_notified := true, high_notified := false } (low - 1) =
      ({ price_displayed := true, last_price := some (low - 1),
         low_notified := true, high_notified := false }, []) := by
    simp [stepPrice, evalThresholds, prevAbove, f7, f8]
  have e6 : stepPrice low high
      { price_displayed := true, last_price := some (low - 1),
        low_notified := true, high_notified := false } mid =
      ({ price_displayed := true, last_price := some mid,
         low_notified := false, high_notified := false }, []) := by
    simp [stepPrice, evalThresholds, f4, f5, f7, h1]
  have e7 : stepPrice low high
      { price_displayed := true, last_price := some mid,
        low_notified := false, high_notified := false } (high + 1) =
      ({ price_displayed := true, last_price := some (high + 1),
         low_notified := false, high_notified := true },
       [Msg.reachedHigh]) := by
    simp [stepPrice, evalThresholds, prevBelow, f1, f2]
  simp [runPrices, e1, e2, e3, e4, e5, e6, e7, threshMsgs]

/-- Witness for C1 at a concrete band: low = 1, high = 3, mid = 2. -/
theorem threshold_sequence_fires_at_crossings_witness :
    (1 : ℚ) < 2 ∧ (2 : ℚ) < 3 ∧
    ((runPrices 1 3 freshState
        [3 + 1, 3 + 1, 2, 1 - 1, 1 - 1, 2, 3 + 1]).2).map threshMsgs =
      [[Msg.reachedHigh], [], [], [Msg.reachedLow], [], [], [Msg.reachedHigh]] :=
  ⟨by norm_num, by norm_num,
    threshold_sequence_fires_at_crossings 1 3 2 (by norm_num) (by norm_num)⟩

theorem isEmptyObj_eq {b : JsonVal} (h : isEmptyObj b = true) : b = JsonVal.obj [] := by
  cases b with
  | obj fs => cases fs with
    | nil => rfl
    | cons x xs => simp [isEmptyObj] at h
  | null => simp [isEmptyObj] at h
  | bool bb => simp [isEmptyObj] at h
  | num q => simp [isEmptyObj] at h
  | str s => simp [isEmptyObj] at h
  | arr l => simp [isEmptyObj] at h

theorem extract_empty : extract_price_from_response (JsonVal.obj []) = none := rfl

theorem jupiter_fails (net : Net) (a : String)
    (h : failedResp (net (jupiter_url a)) = true) :
    fetch_from_jupiter net a = none := by
  unfold fetch_from_jupiter
  cases hr : net (jupiter_url a) with
  | error e => rfl
  | ok p =>
    obtain ⟨s, b⟩ := p
    rw [hr] at h
    simp only [failedResp] at h
    rcases (Bool.or_eq_true _ _).mp h with hs | hb
    · simp [of_decide_eq_true hs]
    · rw [isEmptyObj_eq hb]
      simp [jsonGet?]

theorem birdeye_fails (net : Net) (a : String)
    (h : failedResp (net (birdeye_url a)) = true) :
    fetch_from_birdeye net a = none := by
  unfold fetch_from_birdeye
  cases hr : net (birdeye_url a) with
  | error e => rfl
  | ok p =>
    obtain ⟨s, b⟩ := p
    rw [hr] at h
    simp only [failedResp] at h
    rcases (Bool.or_eq_true _ _).mp h with hs | hb
    · simp [of_decide_eq_true hs]
    · rw [isEmptyObj_eq hb]
      simp [jsonGet?]

theorem dexscreener_fails (net : Net) (a c : String)
    (h : failedResp (net (dexscreener_request_url a c)) = true) :
    fetch_from_dexscreener net a c = none := by
  unfold fetch_from_dexscreener
  cases hr : net (dexscreener_request_url a c) with
  | error e => rfl
  | ok p =>
    obtain ⟨s, b⟩ := p
    rw [hr] at h
    simp only [failedResp] at h
    rcases (Bool.or_eq_true _ _).mp h with hs | hb
    · simp [of_decide_eq_true hs]
    · rw [isEmptyObj_eq hb]
      simp [jsonGet?]

theorem dextoolsLoop_fails (net : Net) (urls : List String)
    (h : ∀ u ∈ urls, failedResp (net u) = true) :
    dextoolsLoop net urls = none := by
  induction urls with
  | nil => rfl
  | cons u rest ih =>
    have hrest := ih (fun v hv => h v (List.mem_cons_of_mem u hv))
    have hu := h u (List.mem_cons_self u rest)
    unfold dextoolsLoop
    cases hr : net u with
    | error e => exact hrest
    | ok p =>
      obtain ⟨s, b⟩ := p
      rw [hr] at hu
      simp only [failedResp] at hu
      rcases (Bool.or_eq_true _ _).mp hu with hs | hb
      · simp [of_decide_eq_true hs, hrest]
      · rw [isEmptyObj_eq hb]
        simp [extract_empty, hrest]

theorem dextools_fails (net : Net) (a c : String)
    (h : ∀ u ∈ dextools_endpoints a c, failedResp (net u) = true) :
    fetch_from_dextools net a c = none :=
  dextoolsLoop_fails net _ h

theorem solana_fails (net : Net) (a : String)
    (h : ∀ url, failedResp (net url) = true) :
    fetch_solana_price net a = none := by
  unfold fetch_solana_price
  rw [jupiter_fails net a (h _), dexscreener_fails net a "solana" (h _),
    dextools_fails net a "solana" (fun u _ => h u), birdeye_fails net a (h _)]

theorem sui_fails (net : Net) (a : String)
    (h : ∀ url, failedResp (net url) = true) :
    fetch_sui_price net a = none := by
  unfold fetch_sui_price
  rw [dexscreener_fails net a "sui" (h _),
    dextools_fails net a "sui" (fun u _ => h u)]

theorem evm_fails (net : Net) (a c : String)
    (h : ∀ url, failedResp (net url) = true) :
    fetch_evm_price net a c = none := by
  unfold fetch_evm_price
  rw [dexscreener_fails net a c (h _),
    dextools_fails net a c (fun u _ => h u)]

/-- C5: for every address and chain, if every upstream request fails — a
transport-level error, a non-success status, or a payload carrying no usable
fields — then `get_price` returns `none`, the defined empty result.  Every
sub-fetcher is total with an `Option` result (each Python exception path is
an explicit `none` here), so no exception can reach the caller. -/
theorem get_price_none_when_all_sources_fail (net : Net) (a chain : String)
    (h : ∀ url, failedResp (net url) = true) :
    get_price net a chain = none := by
  unfold get_price
  show (if chain.toLower = "solana" then fetch_solana_price net a
    else if chain.toLower = "sui" then fetch_sui_price net a
    else fetch_evm_price net a chain.toLower) = none
  split_ifs with c1 c2
  · exact solana_fails net a h
  · exact sui_fails net a h
  · exact evm_fails net a chain.toLower h

/-- Witness for C5 at a concrete input: a network that always fails at
transport level, a Solana lookup. -/
theorem get_price_none_when_all_sources_fail_witness :
    (∀ url, failedResp (failNet url) = true) ∧
    get_price failNet "So1abc" "solana" = none :=
  ⟨fun _ => rfl,
    get_price_none_when_all_sources_fail failNet "So1abc" "solana" (fun _ => rfl)⟩

/-- C3 counterexample: on a payload whose `pairs` list holds a low-liquidity
first record (liquidity 5, price 1) and a high-liquidity second record
(liquidity 100, price 2), `_extract_price_from_response` returns the FIRST
record's price, not the highest-liquidity pair's price required by the claim
(which the spec-worded extractor `extract_price_spec` would return). -/
theorem extract_takes_first_pair_not_highest_liquidity :
    extract_price_from_response cexPayload = some 1 ∧
    extract_price_spec cexPayload = some 2 ∧
    extract_price_from_response cexPayload ≠ extract_price_spec cexPayload :=
  ⟨by decide, by decide, by decide⟩

/-- C3 (amended): the extraction probes, in order, a nested price-like field
under `data`, a top-level price-like field, a nested `result` field, and
finally the FIRST record of the trading-pair list (no liquidity sorting in
this function); the first probe that yields a value wins, and a probe whose
found value fails float conversion aborts the whole extraction. -/
theorem extract_follows_probe_order (data : JsonVal) :
    extract_price_from_response data = probe_chain_first data := by
  unfold extract_price_from_response probe_chain_first extractCore
  cases hp1 : probe_nested_data data with
  | error e => rfl
  | ok r1 =>
    cases r1 with
    | some q => rfl
    | none =>
      cases hp2 : probe_top_level data with
      | error e => rfl
      | ok r2 =>
        cases r2 with
        | some q => rfl
        | none =>
          cases hp3 : probe_nested_result data with
          | error e => rfl
          | ok r3 =>
            cases r3 with
            | some q => rfl
            | none => rfl

/-- C4 counterexample: the DexScreener request URL is built from the token
address alone — two different EVM chain names map to distinct chain ids yet
produce the identical query URL, so the query is not parameterised by the
chain name. -/
theorem dexscreener_request_not_chain_scoped :
    dexscreener_request_url "0xabc" "polygon" = dexscreener_request_url "0xabc" "arbitrum" ∧
    ("polygon" : String) ≠ "arbitrum" ∧
    dexscreener_chain_map.lookup "polygon" ≠ dexscreener_chain_map.lookup "arbitrum" :=
  ⟨rfl, by decide, by decide⟩

/-- C4 (amended): for every EVM-family chain, the resolver tries DexScreener
first and DexTools second, returning the first usable quote; the chain name
reaches the DexTools endpoints, but the DexScreener result does not depend on
it (its `chain_id` is computed and dropped, the query using the address
alone). -/
theorem evm_fallback_dexscreener_then_dextools (net : Net) (a chain : String) :
    (∀ q, fetch_from_dexscreener net a chain = some q →
      fetch_evm_price net a chain = some q) ∧
    (fetch_from_dexscreener net a chain = none →
      fetch_evm_price net a chain = fetch_from_dextools net a chain) ∧
    ∀ c₁ c₂, fetch_from_dexscreener net a c₁ = fetch_from_dexscreener net a c₂ := by
  refine ⟨?_, ?_, ?_⟩
  · intro q hq
    unfold fetch_evm_price
    rw [hq]
  · intro hq
    unfold fetch_evm_price
    rw [hq]
    cases fetch_from_dextools net a chain <;> rfl
  · intro c₁ c₂
    rfl

/-- Witness for C4 (amended) at a concrete input: with an always-failing
network, DexScreener yields nothing and the EVM path falls through to
DexTools. -/
theorem evm_fallback_dexscreener_then_dextools_witness :
    fetch_evm_price failNet "0xabc" "evm" = fetch_from_dextools failNet "0xabc" "evm" :=
  (evm_fallback_dexscreener_then_dextools failNet "0xabc" "evm").2.1 rfl
